import Mathlib

/-!
Verification development for the WhatsApp onboarding chatbot
(onboarding/views.py, onboarding/models.py).

The Python source is shallowly embedded below.  External collaborators are
modelled as explicit function parameters:

* json.loads  -> a parameter  parse : String -> Option Json
  (none models a JSONDecodeError / any parse exception);
* json.dumps  -> a parameter  dumps : Json -> String;
* re.search for the manual reply extraction -> a parameter
  regexReply : String -> Option String (the already unescaped group text);
* the chat-completion calls -> Option-typed oracles carrying the result
  (none models the exception path that the source catches).

All theorems about the embedded functions are proved for every
instantiation of these parameters unless a concrete value is needed for a
counterexample or witness, in which case jsonParseLite below is used and
agrees with json.loads on the inputs involved.
-/

/-- Python-style JSON values as returned by json.loads. -/
inductive Json where
  | null
  | bool (b : Bool)
  | num (n : Int)
  | str (s : String)
  | arr (elems : List Json)
  | obj (fields : List (String × Json))

/-- First binding of a key in a parsed JSON object (dict lookup). -/
def assocFind : List (String × Json) → String → Option Json
  | [], _ => none
  | (k, v) :: rest, key => if k = key then some v else assocFind rest key

/-- Lookup of a key inside a Json value; none when the value is not an object. -/
def jsonLookup : Json → String → Option Json
  | Json.obj kvs, k => assocFind kvs k
  | _, _ => none

/-- Python truthiness of a JSON value (the test  if su:  in the source). -/
def pyTruthy : Json → Bool
  | Json.null => false
  | Json.bool b => b
  | Json.num n => n != 0
  | Json.str s => s != ""
  | Json.arr l => !l.isEmpty
  | Json.obj kvs => !kvs.isEmpty

/-- One history entry, as stored in Candidate.history.  The two fields mirror
m.get("from") and m.get("text") on the underlying dict, so each is optional. -/
structure Record where
  sender : Option String
  text : Option String
  deriving DecidableEq

/-- The Candidate model of onboarding/models.py: name, surname, phone_number,
status and the nullable history JSON column (the auto-managed last_updated
column is elided).  The model declares NO processed_message_ids column; that
missing column is what breaks the whole webhook path, see
processWebhookMessage.  escalationReason is not a column either: it models
the escalation_reason attribute that the views assign dynamically on the
Python instance (run_background_escalation_check, resume_bot) -- such
assignments succeed in memory and the embedded functions record them here,
though save persists only the declared columns. -/
structure Candidate where
  name : String
  surname : String
  phoneNumber : String
  status : String
  escalationReason : Option String
  history : Option (List Record)
  deriving DecidableEq

/-- Python truthiness of a nullable list (used for  if candidate.history: ). -/
def pyTruthyList {α : Type} : Option (List α) → Bool
  | none => false
  | some [] => false
  | some (_ :: _) => true

/-- Lowercasing of one character as str.lower() maps it, covering the ASCII
letters and the uppercase Latin-1 letters 0xC0-0xDE (other than the
multiplication sign 0xD7), which lower by adding 32 in Unicode.  Every
character the keyword lists and markers of the source inspect lies in these
ranges, including the accented Italian capitals such as 0xC8 and 0xC9. -/
def pyToLower (c : Char) : Char :=
  if 65 ≤ c.toNat ∧ c.toNat ≤ 90 then Char.ofNat (c.toNat + 32)
  else if 192 ≤ c.toNat ∧ c.toNat ≤ 222 ∧ c.toNat ≠ 215 then Char.ofNat (c.toNat + 32)
  else c

/-- The embedding of str.lower(). -/
def strLower (s : String) : String := ⟨s.data.map pyToLower⟩

/-- Whitespace stripping at both ends, the embedding of str.strip(). -/
def pyStrip (s : String) : String :=
  ⟨((s.data.dropWhile Char.isWhitespace).reverse.dropWhile Char.isWhitespace).reverse⟩

/-- Embedding of str.startswith. -/
def strStartsWith (s pre : String) : Bool := pre.data.isPrefixOf s.data

/-- Embedding of str.endswith. -/
def strEndsWith (s suf : String) : Bool := suf.data.isSuffixOf s.data

/-- Containment of one character list inside another (Python  needle in hay ). -/
def listContainsSub (needle : List Char) : List Char → Bool
  | [] => needle.isEmpty
  | c :: rest => needle.isPrefixOf (c :: rest) || listContainsSub needle rest

/-- Substring containment, the embedding of Python  needle in haystack . -/
def strContains (haystack needle : String) : Bool :=
  listContainsSub needle.data haystack.data

/-- Python  l[-n:]  for positive n. -/
def pyLastN {α : Type} (n : Nat) (l : List α) : List α := l.drop (l.length - n)

/-- Digits-only string to Nat (used by the concrete parse stand-in). -/
def pyToNat (s : String) : Nat := s.data.foldl (fun n c => n * 10 + (c.toNat - 48)) 0

-- ==============================
-- Language detection (detect_language)
-- ==============================

/-- Italian marker list from detect_language. -/
def itMarkers : List String :=
  ["ciao", "grazie", "buongiorno", "buonasera", "buonanotte", "salve",
   "nome", "cognome", "documento", "firma", "codice", "come", "cosa",
   "residenza", "comune", "registrati", "verifica", "email", "italiano",
   "esempio", "posso", "aiuto", "piacere", "scusa", "prego", "certo"]

/-- English marker list from detect_language. -/
def enMarkers : List String :=
  ["hello", "hi", "hey", "thanks", "thank", "good morning", "good evening",
   "good night", "name", "surname", "document", "signature", "code",
   "how", "what", "where", "register", "verify", "email", "english",
   "example", "can", "help", "please", "sorry", "sure", "yes", "no"]

/-- Italian-specific pattern list from detect_language. -/
def itPatterns : List String :=
  ["è", "è", "à", "é", "ù", "ò", "perché", "che", "del", "della", "gli", "le"]

/-- Embedding of detect_language: marker scoring over the stripped, lowered
text, +2 for an Italian pattern, ties broken by accented characters,
defaulting to "en". -/
def detectLanguage (text : String) : String :=
  if text = "" then "en"
  else
    let t := strLower (pyStrip text)
    let itScore0 := (itMarkers.filter (fun m => strContains t m)).length
    let enScore := (enMarkers.filter (fun m => strContains t m)).length
    let itScore := if itPatterns.any (fun p => strContains t p) then itScore0 + 2 else itScore0
    if itScore > enScore ∧ itScore > 0 then "it"
    else if enScore > itScore ∧ enScore > 0 then "en"
    else if itScore = enScore ∧ itScore > 0 then
      (if "àèéìòù".data.any (fun c => t.data.contains c) then "it" else "en")
    else "en"

-- ==============================
-- Tier-1 escalation (check_immediate_escalation)
-- ==============================

/-- Italian escalation phrases from check_immediate_escalation. -/
def itEscalationPhrases : List String :=
  ["parlare con un operatore",
   "parlare con una persona",
   "contattare un umano",
   "assistenza umana",
   "voglio un operatore",
   "voglio parlare con",
   "posso parlare con una persona",
   "ho bisogno di parlare con un operatore"]

/-- English escalation phrases from check_immediate_escalation. -/
def enEscalationPhrases : List String :=
  ["speak to a human",
   "talk to an operator",
   "contact a person",
   "human assistance",
   "i need a person",
   "real person",
   "talk to a person",
   "speak with an agent"]

/-- Embedding of check_immediate_escalation: phrase containment against the
lower-cased message. -/
def checkImmediateEscalation (message : String) : Bool :=
  let msgLower := strLower message
  (itEscalationPhrases ++ enEscalationPhrases).any (fun p => strContains msgLower p)

-- ==============================
-- Memory manager (get_state_objects, summarize_if_needed)
-- ==============================

/-- Loop body of get_state_objects: walk the history keeping the last
successfully parsed state value and the last summary text.  A parse failure
on a state record is swallowed (the  except: pass  in the source). -/
def getStateLoop (parse : String → Option Json) :
    List Record → Option Json → Option String → Option Json × Option String
  | [], lastState, lastSummary => (lastState, lastSummary)
  | m :: rest, lastState, lastSummary =>
    if m.sender = some "state" then
      getStateLoop parse rest
        (match parse (m.text.getD "\x7b\x7d") with
         | some j => some j
         | none => lastState)
        lastSummary
    else if m.sender = some "summary" then
      getStateLoop parse rest lastState (some (m.text.getD ""))
    else
      getStateLoop parse rest lastState lastSummary

/-- Embedding of get_state_objects.  The source returns (None, None) when the
history is falsy (None or empty) and otherwise runs the loop above. -/
def getStateObjects (parse : String → Option Json) (history : Option (List Record)) :
    Option Json × Option String :=
  match history with
  | none => (none, none)
  | some [] => (none, none)
  | some h => getStateLoop parse h none none

/-- Parse attempt of a single record when it is a state record (spec-side
helper used to characterise getStateObjects). -/
def stateParse (parse : String → Option Json) (m : Record) : Option Json :=
  if m.sender = some "state" then parse (m.text.getD "\x7b\x7d") else none

/-- Summary text of a single record when it is a summary record (spec-side
helper used to characterise getStateObjects). -/
def summaryText (m : Record) : Option String :=
  if m.sender = some "summary" then some (m.text.getD "") else none

/-- First-some choice on options. -/
def optOr {α : Type} : Option α → Option α → Option α
  | some x, _ => some x
  | none, b => b

/-- Index of the last summary record, accumulated exactly like the source
loop (for i, m in enumerate(history): ... last_summary_idx = i). -/
def lastSummaryIdx : List Record → Nat → Option Nat → Option Nat
  | [], _, acc => acc
  | m :: rest, i, acc =>
    lastSummaryIdx rest (i + 1) (if m.sender = some "summary" then some i else acc)

/-- Start index of the summarisation window: one past the last summary
record, or 0 when there is none. -/
def summaryStart (h : List Record) : Nat :=
  match lastSummaryIdx h 0 none with
  | some i => i + 1
  | none => 0

/-- Conversational records are the user/bot/admin tagged ones. -/
def isConvTag (m : Record) : Bool :=
  m.sender == some "user" || m.sender == some "bot" || m.sender == some "admin"

/-- The window summarize_if_needed summarises: conversational records after
the last summary, trimmed to the last 40. -/
def summaryWindow (h : List Record) : List Record :=
  pyLastN 40 ((h.drop (summaryStart h)).filter isConvTag)

/-- Embedding of summarize_if_needed.  summaryResult is the outcome of the
summarisation model call (none models the exception path, which appends
nothing).  The transcript string itself only feeds that call and is elided;
records written by this code always carry a text payload. -/
def summarizeIfNeeded (summaryResult : Option String) (cand : Candidate) : Candidate :=
  let history := cand.history.getD []
  if history.length < 60 then cand
  else
    let window := summaryWindow history
    if window = [] then cand
    else
      match summaryResult with
      | some s => { cand with history := some (history ++ [{ sender := some "summary", text := some s }]) }
      | none => cand

-- ==============================
-- Dialogue orchestrator (orchestrated_reply)
-- ==============================

/-- The fixed acknowledgement; both branches of the source conditional are
the same literal ("Ok." if lang == "en" else "Ok."). -/
def fallbackAck (lang : String) : String := if lang = "en" then "Ok." else "Ok."

/-- The fixed language-dependent apology returned on any model-call failure. -/
def apologyFor (lang : String) : String :=
  if lang = "en" then "Sorry, something went wrong. Please try again later."
  else "Spiacente, si è verificato un errore. Riprova più tardi."

/-- Extraction and normalisation of the reply field (the chain of isinstance
checks in orchestrated_reply): None, the empty string, dicts and lists all
collapse to the empty string; other non-strings are rendered and rejected
if the rendering looks like JSON. -/
def extractReplyField (kvs : List (String × Json)) : String :=
  match assocFind kvs "reply" with
  | none => ""
  | some Json.null => ""
  | some (Json.str s) => s
  | some (Json.obj _) => ""
  | some (Json.arr _) => ""
  | some (Json.bool b) =>
    let rs := if b then "True" else "False"
    if strStartsWith rs "\x7b" ∧ strEndsWith rs "\x7d" then "" else rs
  | some (Json.num n) =>
    let rs := toString n
    if strStartsWith rs "\x7b" ∧ strEndsWith rs "\x7d" then "" else rs

/-- The final safety check of orchestrated_reply: when the reply still looks
like a JSON object, one nested parse attempts to recover an inner reply
field; every other outcome of that attempt falls back to the fixed
acknowledgement.  The second component counts the nested parse attempts.
A non-dict parse result makes the source either skip to the else branch or
raise inside the surrounding try, both of which end in the fallback. -/
def finalSafetyCheck (parse : String → Option Json) (lang reply : String) : String × Nat :=
  if strStartsWith reply "\x7b" ∧ strEndsWith reply "\x7d" then
    match parse reply with
    | none => (fallbackAck lang, 1)
    | some (Json.obj kvs) =>
      (match assocFind kvs "reply" with
       | some (Json.str s) =>
         let extracted := pyStrip s
         if extracted ≠ "" ∧ ¬(strStartsWith extracted "\x7b" ∧ strEndsWith extracted "\x7d") then
           (extracted, 1)
         else (fallbackAck lang, 1)
       | _ => (fallbackAck lang, 1))
    | some _ => (fallbackAck lang, 1)
  else (reply, 0)

/-- The parsing stage of orchestrated_reply (lines 313-337 of views.py): a
successful json.loads of the cleaned text yields its dict; a non-dict result
makes the later data.get raise, modelled as the error case that the outer
except turns into the apology; a parse failure falls back to the manual
regex extraction when the text looks like JSON, and to the text itself
otherwise, in both cases building the substitute data dict of the source. -/
def parseModelOutput (parse : String → Option Json) (regexReply : String → Option String)
    (lang cleaned : String) : Except Unit (List (String × Json)) :=
  match parse cleaned with
  | some (Json.obj kvs) => Except.ok kvs
  | some _ => Except.error ()
  | none =>
    if strStartsWith cleaned "\x7b" ∧ strEndsWith cleaned "\x7d" then
      match regexReply cleaned with
      | some t =>
        Except.ok [("reply", Json.str t), ("state_update", Json.null),
                   ("intent", Json.str "other"), ("next_step", Json.str "")]
      | none =>
        Except.ok [("reply", Json.str (fallbackAck lang)), ("state_update", Json.null),
                   ("intent", Json.str "other"), ("next_step", Json.str "")]
    else
      Except.ok [("reply", Json.str cleaned), ("state_update", Json.null),
                 ("intent", Json.str "other"), ("next_step", Json.str "")]

/-- The sanitisation stage of orchestrated_reply (lines 339-394 of views.py):
extract and normalise the reply field, strip it, run the final safety check,
and replace an empty result by the fixed acknowledgement. -/
def sanitizeReply (parse : String → Option Json) (lang : String)
    (kvs : List (String × Json)) : String :=
  let reply0 := extractReplyField kvs
  let reply1 := if reply0 = "" then "" else pyStrip reply0
  let reply2 := (finalSafetyCheck parse lang reply1).fst
  if reply2 = "" then fallbackAck lang else reply2

/-- Embedding of orchestrated_reply from the cleaned model output onward
(markdown fence stripping only rewrites the oracle input and is elided).
modelOutput = none models an exception from the model call, answered by the
fixed apology.  Returns the reply together with the serialized state record
text to persist (some when state_update is truthy). -/
def orchestratedReply (parse : String → Option Json) (regexReply : String → Option String)
    (dumps : Json → String) (incomingMsg : String) (modelOutput : Option String) :
    String × Option String :=
  let lang := detectLanguage incomingMsg
  match modelOutput with
  | none => (apologyFor lang, none)
  | some cleaned =>
    match parseModelOutput parse regexReply lang cleaned with
    | Except.error _ => (apologyFor lang, none)
    | Except.ok kvs =>
      let stateText :=
        match assocFind kvs "state_update" with
        | some j => if pyTruthy j then some (dumps j) else none
        | none => none
      (sanitizeReply parse lang kvs, stateText)

-- ==============================
-- Webhook processing (process_webhook_message)
-- ==============================

/-- Observable side effects of processing one inbound message, in order. -/
inductive Effect where
  | modelCall
  | sendText (body : String)
  | email
  | spawnTier2
  | spawnSummary
  deriving DecidableEq

/-- The fixed handoff message sent on tier-1 escalation, selected by the
detected language of the triggering message. -/
def handoffText (lang : String) : String :=
  if lang = "it" then "Ti metto in contatto con un operatore. A breve riceverai assistenza."
  else "I\x27ll connect you with an operator. You\x27ll receive assistance shortly."

/-- The columns models.py declares on Candidate (last_updated auto-managed). -/
def candidateColumns : List String :=
  ["name", "surname", "phone_number", "status", "history", "last_updated"]

/-- Embedding of process_webhook_message against the staged models.py, for a
delivery addressed to the given candidate.  Because Candidate declares no
processed_message_ids column, every invocation raises before reaching any
observable step: for a new sender the get_or_create defaults at
views.py:589-592 pass processed_message_ids to the model constructor, which
rejects the unknown keyword, and for an existing candidate the attribute
read  candidate.processed_message_ids  at views.py:595 raises
AttributeError.  The blanket  except  at views.py:664 swallows the
exception, so processing ends before the deduplication check (:601), the
user-record append (:612), the tier-1 keyword check (:618), the
escalated-status check (:632) and the reply path (:637-662): the persisted
candidate is unchanged and no effect of any kind is produced. -/
def processWebhookMessage (cand : Candidate) (incomingMsg : String)
    (messageId : Option String) : Candidate × List Effect :=
  (cand, [])

-- ==============================
-- Tier-2 escalation (run_background_escalation_check)
-- ==============================

/-- Count of user-tagged records in a history. -/
def userMsgCount (hist : List Record) : Nat :=
  (hist.filter (fun m => m.sender == some "user")).length

/-- Embedding of run_background_escalation_check.  scores carries the four
defaulted integers read from the classifier output; none models any failure
of the call or of the parse (swallowed by the except, ending unchanged).  A
null history makes the source raise while counting user messages, which the
same except swallows. -/
def runBackgroundEscalationCheck (scores : Option (Int × Int × Int × Int))
    (cand : Candidate) : Candidate :=
  if cand.status = "escalated" then cand
  else
    match cand.history with
    | none => cand
    | some hist =>
      if userMsgCount hist % 3 = 0 ∨ userMsgCount hist = 1 then
        match scores with
        | none => cand
        | some (f, h, c, r) =>
          if f ≥ 7 ∨ h ≥ 8 ∨ (c ≥ 8 ∧ r ≥ 3) then
            let reason := "Escalated (F:" ++ toString f ++ ", H:" ++ toString h
              ++ ", C:" ++ toString c ++ ", R:" ++ toString r ++ ")"
            { cand with
              status := "escalated"
              escalationReason := some reason }
          else cand
      else cand

-- ==============================
-- Resume action (resume_bot)
-- ==============================

/-- Embedding of the resume_bot action on a found candidate: status replied,
reason cleared, history trimmed to the last 3 entries when truthy. -/
def resumeBot (cand : Candidate) : Candidate :=
  let c : Candidate := { cand with status := "replied", escalationReason := none }
  if pyTruthyList c.history then { c with history := c.history.map (pyLastN 3) } else c

-- ==============================
-- Template send (send_onboarding_template)
-- ==============================

/-- An HTTP response as the transport returns it. -/
structure HttpResponse where
  statusCode : Nat
  jsonBody : Json

/-- The template payload built by send_onboarding_template in the source:
template onboarding_named with a document header and a single body
parameter carrying the first name. -/
def onboardingTemplatePayload (phoneNumber personName : String) : Json :=
  Json.obj
    [("messaging_product", Json.str "whatsapp"),
     ("to", Json.str phoneNumber),
     ("type", Json.str "template"),
     ("template", Json.obj
       [("name", Json.str "onboarding_named"),
        ("language", Json.obj [("code", Json.str "it")]),
        ("components", Json.arr
          [Json.obj
            [("type", Json.str "header"),
             ("parameters", Json.arr
               [Json.obj
                 [("type", Json.str "document"),
                  ("document", Json.obj
                    [("link", Json.str "https://instant-avatar.com/document/Privacy%20whatsapp.pdf"),
                     ("filename", Json.str "Informativa_InPlace.pdf")])]])],
           Json.obj
            [("type", Json.str "body"),
             ("parameters", Json.arr
               [Json.obj
                 [("type", Json.str "text"),
                  ("parameter_name", Json.str "first_name"),
                  ("text", Json.str personName)]])]])])]

/-- Embedding of send_onboarding_template in the source under src: it builds
the payload, performs exactly one post through the transport and raises for
an error status (raise_for_status).  The second component lists the posted
payloads.  There is no retry branch anywhere in the function. -/
def sendOnboardingTemplate (transport : Json → HttpResponse)
    (phoneNumber personName : String) : Except Unit Json × List Json :=
  let payload := onboardingTemplatePayload phoneNumber personName
  let resp := transport payload
  ((if resp.statusCode ≥ 400 then Except.error () else Except.ok resp.jsonBody), [payload])

/-- The mismatch details string from the retry test in onboarding/tests.py. -/
def paramMismatchDetails : String :=
  "body: number of localizable_params (3) does not match the expected number of params (1)"

/-- The 400 response mocked by the retry test. -/
def mismatchResponse : HttpResponse :=
  { statusCode := 400,
    jsonBody := Json.obj
      [("error", Json.obj
        [("error_data", Json.obj
          [("details", Json.str paramMismatchDetails)])])] }

-- ==============================
-- Concrete stand-ins for witnesses and counterexamples
-- ==============================

/-- A small concrete stand-in for json.loads, used only to instantiate the
parse parameter in witnesses and counterexamples.  It agrees with json.loads
on every input these use: the empty object parses to an empty object, a bare
string of digits parses to a number, everything else fails. -/
def jsonParseLite (s : String) : Option Json :=
  let t := pyStrip s
  if t = "\x7b\x7d" then some (Json.obj [])
  else if t ≠ "" ∧ t.data.all Char.isDigit then some (Json.num (pyToNat t))
  else none

/-- Badness of the nested recovery attempt in the final safety check: the
inner parse fails, yields a non-object, lacks a string reply field, or that
field is blank or itself JSON-looking.  Used to state the fallback clause of
the sanitizer claim. -/
def innerBad (parse : String → Option Json) (reply : String) : Bool :=
  match parse reply with
  | some (Json.obj kvs) =>
    (match assocFind kvs "reply" with
     | some (Json.str s) =>
       pyStrip s = "" || (strStartsWith (pyStrip s) "\x7b" && strEndsWith (pyStrip s) "\x7d")
     | some _ => true
     | none => true)
  | some _ => true
  | none => true

/-- Count of outbound text sends in an effect list. -/
def sendCount (effs : List Effect) : Nat :=
  (effs.filter (fun e => match e with | Effect.sendText _ => true | _ => false)).length

/-- Count of user-tagged records in the persisted history of a candidate. -/
def userRecCount (c : Candidate) : Nat := userMsgCount (c.history.getD [])

/-- A concrete candidate in the replied state with empty memory. -/
def sampleCand : Candidate :=
  { name := "Mario", surname := "Rossi", phoneNumber := "393331234567",
    status := "replied", escalationReason := none, history := some [] }

/-- A concrete escalated candidate. -/
def escalatedCand : Candidate :=
  { sampleCand with
    status := "escalated"
    escalationReason := some "Escalated (F:8, H:0, C:0, R:0)" }

/-- Ten user records, a concrete history of length 10. -/
def tenRecords : List Record :=
  (List.range 10).map (fun i => { sender := some "user", text := some (toString i) })

/-- The escalated candidate holding ten history entries. -/
def escalatedCandTen : Candidate := { escalatedCand with history := some tenRecords }

/-- A history whose most recent state record is malformed while an earlier
one parses. -/
def badStateHistory : List Record :=
  [{ sender := some "state", text := some "\x7b\x7d" },
   { sender := some "state", text := some "not json" }]

-- ==============================
-- Helper lemmas
-- ==============================

theorem optOr_none {α : Type} (a : Option α) : optOr a none = a := by
  cases a <;> rfl

theorem optOr_optOr {α : Type} (a b c : Option α) :
    optOr (optOr a b) c = optOr a (optOr b c) := by
  cases a <;> rfl

theorem findSome_append {α β : Type} (f : α → Option β) (l1 l2 : List α) :
    (l1 ++ l2).findSome? f = optOr (l1.findSome? f) (l2.findSome? f) := by
  induction l1 with
  | nil => simp [List.findSome?, optOr]
  | cons a t ih =>
    simp only [List.cons_append, List.findSome?]
    cases f a <;> simp [optOr, ih]

theorem getStateLoop_eq (parse : String → Option Json) (h : List Record) :
    ∀ (ls : Option Json) (lsum : Option String),
    getStateLoop parse h ls lsum =
      (optOr (h.reverse.findSome? (stateParse parse)) ls,
       optOr (h.reverse.findSome? summaryText) lsum) := by
  induction h with
  | nil => intro ls lsum; simp [getStateLoop, optOr]
  | cons m rest ih =>
    intro ls lsum
    rw [List.reverse_cons, findSome_append (stateParse parse), findSome_append summaryText]
    by_cases hst : m.sender = some "state"
    · have hsum : ¬ m.sender = some "summary" := by rw [hst]; simp
      have h2 : ([m].findSome? summaryText) = none := by
        simp [List.findSome?, summaryText, hsum]
      cases hp : parse (m.text.getD "\x7b\x7d") with
      | some j =>
        have h1 : ([m].findSome? (stateParse parse)) = some j := by
          simp [List.findSome?, stateParse, hst, hp]
        simp only [getStateLoop, if_pos hst, hp]
        rw [ih, h1, h2, optOr_optOr, optOr_optOr]
        simp [optOr]
      | none =>
        have h1 : ([m].findSome? (stateParse parse)) = none := by
          simp [List.findSome?, stateParse, hst, hp]
        simp only [getStateLoop, if_pos hst, hp]
        rw [ih, h1, h2, optOr_optOr, optOr_optOr]
        simp [optOr]
    · by_cases hsum : m.sender = some "summary"
      · have h1 : ([m].findSome? (stateParse parse)) = none := by
          simp [List.findSome?, stateParse, hst]
        have h2 : ([m].findSome? summaryText) = some (m.text.getD "") := by
          simp [List.findSome?, summaryText, hsum]
        simp only [getStateLoop, if_neg hst, if_pos hsum]
        rw [ih, h1, h2, optOr_optOr, optOr_optOr]
        simp [optOr]
      · have h1 : ([m].findSome? (stateParse parse)) = none := by
          simp [List.findSome?, stateParse, hst]
        have h2 : ([m].findSome? summaryText) = none := by
          simp [List.findSome?, summaryText, hsum]
        simp only [getStateLoop, if_neg hst, if_neg hsum]
        rw [ih, h1, h2, optOr_optOr, optOr_optOr]
        simp [optOr]

theorem pyLastN_sublist {α : Type} (n : Nat) (l : List α) :
    List.Sublist (pyLastN n l) l := by
  unfold pyLastN; exact List.drop_sublist _ _

theorem pyLastN_length_le {α : Type} (n : Nat) (l : List α) :
    (pyLastN n l).length ≤ n := by
  unfold pyLastN; rw [List.length_drop]; omega

-- ==============================
-- Claim theorems: memory manager and resume
-- ==============================

/-- C6 (amended): getStateObjects returns, for the state component, the most
recent successfully parsed state record value, scanning past malformed state
records (so a malformed most recent record falls back to the most recent
earlier parseable one, and the result is None only when no state record
parses), together with the text of the most recent summary record (None when
absent); a null or empty history yields (None, None), and the function is
total, never raising. -/
theorem get_state_objects_spec (parse : String → Option Json) (h : List Record) :
    getStateObjects parse (some h)
      = (h.reverse.findSome? (stateParse parse), h.reverse.findSome? summaryText)
    ∧ getStateObjects parse none = (none, none) := by
  constructor
  · cases h with
    | nil => simp [getStateObjects, List.findSome?]
    | cons m t =>
      show getStateLoop parse (m :: t) none none = _
      rw [getStateLoop_eq, optOr_none, optOr_none]
  · rfl

/-- C6 counterexample: on a history whose most recent state record is
malformed but whose earlier state record parses, get_state_objects returns
the earlier parsed value, not None as the claim requires.  jsonParseLite
agrees with json.loads here: the empty object parses, "not json" does not. -/
theorem get_state_objects_malformed_latest :
    (getStateObjects jsonParseLite (some badStateHistory)).fst = some (Json.obj [])
    ∧ (getStateObjects jsonParseLite (some badStateHistory)).fst ≠ none := by
  refine ⟨rfl, ?_⟩
  intro hcontra
  rw [show (getStateObjects jsonParseLite (some badStateHistory)).fst
        = some (Json.obj []) from rfl] at hcontra
  exact Option.noConfusion hcontra

/-- C9: summarize_if_needed leaves the candidate unchanged below 60 history
entries; the summarised window is drawn entirely from the records strictly
after the most recent summary record (or from the start when none), consists
only of user/bot/admin records, and holds at most the last 40 of them; and
the only possible change is appending one summary record, which happens only
at history length at least 60. -/
theorem summarize_if_needed_spec (o : Option String) (cand : Candidate) :
    ((cand.history.getD []).length < 60 → summarizeIfNeeded o cand = cand)
    ∧ List.Sublist (summaryWindow (cand.history.getD []))
        ((cand.history.getD []).drop (summaryStart (cand.history.getD [])))
    ∧ (summaryWindow (cand.history.getD [])).length ≤ 40
    ∧ (∀ m ∈ summaryWindow (cand.history.getD []), isConvTag m = true)
    ∧ ((summarizeIfNeeded o cand).history = cand.history
       ∨ (60 ≤ (cand.history.getD []).length
          ∧ ∃ s, (summarizeIfNeeded o cand).history
              = some ((cand.history.getD [])
                  ++ [{ sender := some "summary", text := some s }]))) := by
  refine ⟨?_, ?_, ?_, ?_, ?_⟩
  · intro hlt
    unfold summarizeIfNeeded
    rw [if_pos hlt]
  · exact (pyLastN_sublist 40 _).trans (List.filter_sublist _)
  · exact pyLastN_length_le 40 _
  · intro m hm
    have hmem : m ∈ ((cand.history.getD []).drop
        (summaryStart (cand.history.getD []))).filter isConvTag :=
      (pyLastN_sublist 40 _).subset hm
    exact List.of_mem_filter hmem
  · unfold summarizeIfNeeded
    by_cases hlt : (cand.history.getD []).length < 60
    · rw [if_pos hlt]; left; rfl
    · rw [if_neg hlt]
      by_cases hw : summaryWindow (cand.history.getD []) = []
      · rw [if_pos hw]; left; rfl
      · rw [if_neg hw]
        cases o with
        | none => left; rfl
        | some s => right; exact ⟨by omega, s, rfl⟩

/-- C9 witness: a candidate with an empty history is left unchanged, and the
window bound is concrete. -/
theorem summarize_if_needed_spec_witness :
    summarizeIfNeeded (some "digest") sampleCand = sampleCand
    ∧ (summaryWindow (sampleCand.history.getD [])).length ≤ 40 :=
  ⟨(summarize_if_needed_spec (some "digest") sampleCand).1 (by decide),
   (summarize_if_needed_spec (some "digest") sampleCand).2.2.1⟩

/-- C8: the resume action on an escalated candidate sets status to replied,
clears the escalation reason, trims the history to its last 3 entries, and
in particular a 10-entry history is left with exactly 3 entries. -/
theorem resume_bot_spec (cand : Candidate) (hstat : cand.status = "escalated") :
    (resumeBot cand).status = "replied"
    ∧ (resumeBot cand).escalationReason = none
    ∧ (resumeBot cand).history = cand.history.map (pyLastN 3)
    ∧ (∀ l, cand.history = some l → l.length = 10 →
        ((resumeBot cand).history.getD []).length = 3) := by
  have hhist : (resumeBot cand).history = cand.history.map (pyLastN 3) := by
    unfold resumeBot
    by_cases ht : pyTruthyList cand.history
    · rw [if_pos ht]
    · rw [if_neg ht]
      show cand.history = cand.history.map (pyLastN 3)
      cases hc : cand.history with
      | none => rfl
      | some l =>
        cases l with
        | nil => rfl
        | cons a t => rw [hc] at ht; exact absurd rfl ht
  refine ⟨?_, ?_, hhist, ?_⟩
  · unfold resumeBot; by_cases ht : pyTruthyList cand.history
    · rw [if_pos ht]
    · rw [if_neg ht]
  · unfold resumeBot; by_cases ht : pyTruthyList cand.history
    · rw [if_pos ht]
    · rw [if_neg ht]
  · intro l hl hlen
    rw [hhist, hl]
    show (pyLastN 3 l).length = 3
    unfold pyLastN
    rw [List.length_drop]
    omega

/-- C8 witness: resuming the concrete escalated candidate with ten history
entries yields status replied, a cleared reason and exactly 3 entries. -/
theorem resume_bot_spec_witness :
    (resumeBot escalatedCandTen).status = "replied"
    ∧ (resumeBot escalatedCandTen).escalationReason = none
    ∧ ((resumeBot escalatedCandTen).history.getD []).length = 3 :=
  ⟨(resume_bot_spec escalatedCandTen rfl).1,
   (resume_bot_spec escalatedCandTen rfl).2.1,
   (resume_bot_spec escalatedCandTen rfl).2.2.2 tenRecords rfl (by decide)⟩

-- ==============================
-- Claim theorems: tier-2 escalation
-- ==============================

/-- C4: when the gates of the background check pass (status not escalated,
history present, the 1-in-3 sampling rule satisfied, scores parsed), the
candidate is escalated exactly when frustration is at least 7, or human
request at least 8, or confusion at least 8 together with repeat count at
least 3; in particular scores (8,0,0,0) escalate and (6,7,7,2) do not. -/
theorem tier2_escalation_threshold (cand : Candidate) (hist : List Record)
    (f h c r : Int) (hs : cand.status ≠ "escalated") (hh : cand.history = some hist)
    (hgate : userMsgCount hist % 3 = 0 ∨ userMsgCount hist = 1) :
    ((runBackgroundEscalationCheck (some (f, h, c, r)) cand).status = "escalated"
       ↔ (f ≥ 7 ∨ h ≥ 8 ∨ (c ≥ 8 ∧ r ≥ 3)))
    ∧ (runBackgroundEscalationCheck (some (8, 0, 0, 0)) cand).status = "escalated"
    ∧ (runBackgroundEscalationCheck (some (6, 7, 7, 2)) cand).status ≠ "escalated" := by
  refine ⟨?_, ?_, ?_⟩
  · unfold runBackgroundEscalationCheck
    rw [if_neg hs, hh]
    dsimp only
    rw [if_pos hgate]
    by_cases hth : (f ≥ 7 ∨ h ≥ 8 ∨ (c ≥ 8 ∧ r ≥ 3))
    · rw [if_pos hth]; exact iff_of_true rfl hth
    · rw [if_neg hth]; exact iff_of_false hs hth
  · unfold runBackgroundEscalationCheck
    rw [if_neg hs, hh]
    dsimp only
    rw [if_pos hgate, if_pos (by decide :
      (8 : Int) ≥ 7 ∨ (0 : Int) ≥ 8 ∨ ((0 : Int) ≥ 8 ∧ (0 : Int) ≥ 3))]
  · unfold runBackgroundEscalationCheck
    rw [if_neg hs, hh]
    dsimp only
    rw [if_pos hgate, if_neg (by decide :
      ¬((6 : Int) ≥ 7 ∨ (7 : Int) ≥ 8 ∨ ((7 : Int) ≥ 8 ∧ (2 : Int) ≥ 3)))]
    exact hs

/-- C4 witness: the threshold theorem applied to the concrete replied
candidate with an empty history (0 user messages, so the sampling gate
holds). -/
theorem tier2_escalation_threshold_witness :
    (((runBackgroundEscalationCheck (some (0, 0, 0, 0)) sampleCand).status = "escalated")
       ↔ ((0 : Int) ≥ 7 ∨ (0 : Int) ≥ 8 ∨ ((0 : Int) ≥ 8 ∧ (0 : Int) ≥ 3)))
    ∧ (runBackgroundEscalationCheck (some (8, 0, 0, 0)) sampleCand).status = "escalated"
    ∧ (runBackgroundEscalationCheck (some (6, 7, 7, 2)) sampleCand).status ≠ "escalated" :=
  tier2_escalation_threshold sampleCand [] 0 0 0 0 (by decide) rfl (by decide)

-- ==============================
-- Claim theorems: template send (code bug)
-- ==============================

/-- C7: the send_onboarding_template in the source posts its payload exactly
once and raises on an error status; at the 400 parameter-count-mismatch
response mocked by the retry test it fails the send instead of retrying with
a reduced parameter set, and its template payload is the two-parameter
onboarding_named one, not the inplace_onboarding_v3 payload the test calls
with four arguments.  This contradicts
test_send_onboarding_template_retries_with_expected_param_count, which
demands a second post carrying only the first body parameter. -/
theorem send_onboarding_template_no_retry (transport : Json → HttpResponse)
    (phone personName : String) :
    (sendOnboardingTemplate transport phone personName).snd
      = [onboardingTemplatePayload phone personName]
    ∧ (sendOnboardingTemplate (fun _ => mismatchResponse) "393331234567" "Mario").fst
      = Except.error ()
    ∧ ((jsonLookup (onboardingTemplatePayload "393331234567" "Mario") "template").bind
        (fun t => jsonLookup t "name")) = some (Json.str "onboarding_named") :=
  ⟨rfl, rfl, rfl⟩

-- ==============================
-- Sanitizer lemmas and claims C3 / C10
-- ==============================

theorem fallbackAck_eq (lang : String) : fallbackAck lang = "Ok." := by
  unfold fallbackAck; split <;> rfl

theorem fallbackAck_props (lang : String) :
    fallbackAck lang ≠ ""
    ∧ ¬(strStartsWith (fallbackAck lang) "\x7b" ∧ strEndsWith (fallbackAck lang) "\x7d") := by
  rw [fallbackAck_eq]
  exact ⟨by decide, by decide⟩

theorem apologyFor_props (lang : String) :
    apologyFor lang ≠ ""
    ∧ ¬(strStartsWith (apologyFor lang) "\x7b" ∧ strEndsWith (apologyFor lang) "\x7d") := by
  unfold apologyFor
  split
  · exact ⟨by decide, by decide⟩
  · exact ⟨by decide, by decide⟩

theorem finalSafetyCheck_fst (parse : String → Option Json) (lang reply : String) :
    (finalSafetyCheck parse lang reply).fst = fallbackAck lang
    ∨ ¬(strStartsWith (finalSafetyCheck parse lang reply).fst "\x7b"
        ∧ strEndsWith (finalSafetyCheck parse lang reply).fst "\x7d") := by
  unfold finalSafetyCheck
  by_cases hc : strStartsWith reply "\x7b" ∧ strEndsWith reply "\x7d"
  · rw [if_pos hc]
    cases hp : parse reply with
    | none => left; rfl
    | some j =>
      cases j with
      | obj kvs =>
        dsimp only
        cases hf : assocFind kvs "reply" with
        | none => left; rfl
        | some v =>
          cases v with
          | str s =>
            dsimp only
            by_cases hguard : pyStrip s ≠ ""
                ∧ ¬(strStartsWith (pyStrip s) "\x7b" ∧ strEndsWith (pyStrip s) "\x7d")
            · rw [if_pos hguard]; right; exact hguard.2
            · rw [if_neg hguard]; left; rfl
          | null => left; rfl
          | bool b => left; rfl
          | num n => left; rfl
          | arr l => left; rfl
          | obj kvs2 => left; rfl
      | null => left; rfl
      | bool b => left; rfl
      | num n => left; rfl
      | str s => left; rfl
      | arr l => left; rfl
  · rw [if_neg hc]
    right; exact hc

theorem finalSafetyCheck_snd (parse : String → Option Json) (lang reply : String) :
    (finalSafetyCheck parse lang reply).snd
      = if strStartsWith reply "\x7b" ∧ strEndsWith reply "\x7d" then 1 else 0 := by
  unfold finalSafetyCheck
  by_cases hc : strStartsWith reply "\x7b" ∧ strEndsWith reply "\x7d"
  · rw [if_pos hc, if_pos hc]
    cases hp : parse reply with
    | none => rfl
    | some j =>
      cases j with
      | obj kvs =>
        dsimp only
        cases hf : assocFind kvs "reply" with
        | none => rfl
        | some v =>
          cases v with
          | str s =>
            dsimp only
            by_cases hguard : pyStrip s ≠ ""
                ∧ ¬(strStartsWith (pyStrip s) "\x7b" ∧ strEndsWith (pyStrip s) "\x7d")
            · rw [if_pos hguard]
            · rw [if_neg hguard]
          | null => rfl
          | bool b => rfl
          | num n => rfl
          | arr l => rfl
          | obj kvs2 => rfl
      | null => rfl
      | bool b => rfl
      | num n => rfl
      | str s => rfl
      | arr l => rfl
  · rw [if_neg hc, if_neg hc]

theorem finalSafetyCheck_bad (parse : String → Option Json) (lang reply : String)
    (hc : strStartsWith reply "\x7b" ∧ strEndsWith reply "\x7d")
    (hbad : innerBad parse reply = true) :
    (finalSafetyCheck parse lang reply).fst = fallbackAck lang := by
  unfold finalSafetyCheck
  rw [if_pos hc]
  unfold innerBad at hbad
  cases hp : parse reply with
  | none => rfl
  | some j =>
    rw [hp] at hbad
    cases j with
    | obj kvs =>
      dsimp only at hbad ⊢
      cases hf : assocFind kvs "reply" with
      | none => rfl
      | some v =>
        rw [hf] at hbad
        cases v with
        | str s =>
          dsimp only at hbad ⊢
          rw [if_neg]
          intro hcon
          rcases hcon with ⟨hne, hnot⟩
          simp only [Bool.or_eq_true, decide_eq_true_eq, Bool.and_eq_true] at hbad
          rcases hbad with hemp | hjson
          · exact hne hemp
          · exact hnot ⟨hjson.1, hjson.2⟩
        | null => rfl
        | bool b => rfl
        | num n => rfl
        | arr l => rfl
        | obj kvs2 => rfl
    | null => rfl
    | bool b => rfl
    | num n => rfl
    | str s => rfl
    | arr l => rfl

theorem sanitizeReply_props (parse : String → Option Json) (lang : String)
    (kvs : List (String × Json)) :
    sanitizeReply parse lang kvs ≠ ""
    ∧ ¬(strStartsWith (sanitizeReply parse lang kvs) "\x7b"
        ∧ strEndsWith (sanitizeReply parse lang kvs) "\x7d") := by
  unfold sanitizeReply
  dsimp only
  by_cases h2 : (finalSafetyCheck parse lang
      (if extractReplyField kvs = "" then "" else pyStrip (extractReplyField kvs))).fst = ""
  · rw [if_pos h2]
    exact ⟨(fallbackAck_props lang).1, (fallbackAck_props lang).2⟩
  · rw [if_neg h2]
    refine ⟨h2, ?_⟩
    rcases finalSafetyCheck_fst parse lang
        (if extractReplyField kvs = "" then "" else pyStrip (extractReplyField kvs))
      with hfb | hok
    · rw [hfb]; exact (fallbackAck_props lang).2
    · exact hok

theorem orchestratedReply_fst_props (parse : String → Option Json)
    (regexReply : String → Option String) (dumps : Json → String)
    (msg : String) (mo : Option String) :
    (orchestratedReply parse regexReply dumps msg mo).fst ≠ ""
    ∧ ¬(strStartsWith (orchestratedReply parse regexReply dumps msg mo).fst "\x7b"
        ∧ strEndsWith (orchestratedReply parse regexReply dumps msg mo).fst "\x7d")
    ∧ (mo = none → (orchestratedReply parse regexReply dumps msg mo).fst
        = apologyFor (detectLanguage msg)) := by
  cases mo with
  | none =>
    exact ⟨(apologyFor_props (detectLanguage msg)).1,
           (apologyFor_props (detectLanguage msg)).2, fun _ => rfl⟩
  | some out =>
    unfold orchestratedReply
    dsimp only
    cases hD : parseModelOutput parse regexReply (detectLanguage msg) out with
    | error e =>
      exact ⟨(apologyFor_props (detectLanguage msg)).1,
             (apologyFor_props (detectLanguage msg)).2,
             fun hcontra => Option.noConfusion hcontra⟩
    | ok kvs =>
      exact ⟨(sanitizeReply_props parse (detectLanguage msg) kvs).1,
             (sanitizeReply_props parse (detectLanguage msg) kvs).2,
             fun hcontra => Option.noConfusion hcontra⟩

/-- C3: the reply returned by orchestrated_reply for any model output never
both starts with an opening brace and ends with a closing one; the final
safety check attempts exactly one nested parse, and it does so exactly when
the extracted reply looks like a JSON object; and whenever that nested
recovery fails (parse failure, non-object, missing or non-string inner
reply, or an inner reply that is blank or itself JSON-looking) the fixed
acknowledgement is returned. -/
theorem sanitizer_never_returns_json (parse : String → Option Json)
    (regexReply : String → Option String) (dumps : Json → String)
    (msg out lang reply : String) :
    ¬(strStartsWith (orchestratedReply parse regexReply dumps msg (some out)).fst "\x7b"
      ∧ strEndsWith (orchestratedReply parse regexReply dumps msg (some out)).fst "\x7d")
    ∧ (finalSafetyCheck parse lang reply).snd
        = (if strStartsWith reply "\x7b" ∧ strEndsWith reply "\x7d" then 1 else 0)
    ∧ ((strStartsWith reply "\x7b" ∧ strEndsWith reply "\x7d") →
        innerBad parse reply = true →
        (finalSafetyCheck parse lang reply).fst = fallbackAck lang) :=
  ⟨(orchestratedReply_fst_props parse regexReply dumps msg (some out)).2.1,
   finalSafetyCheck_snd parse lang reply,
   fun hc hbad => finalSafetyCheck_bad parse lang reply hc hbad⟩

/-- C3 witness: a JSON-looking reply whose nested parse fails is replaced by
the fixed acknowledgement, and the nested parse is attempted exactly once. -/
theorem sanitizer_never_returns_json_witness :
    ¬(strStartsWith (orchestratedReply jsonParseLite (fun _ => none) (fun _ => "")
         "hello there" (some "not json")).fst "\x7b"
      ∧ strEndsWith (orchestratedReply jsonParseLite (fun _ => none) (fun _ => "")
         "hello there" (some "not json")).fst "\x7d")
    ∧ (finalSafetyCheck jsonParseLite "en" "\x7bnope\x7d").snd
        = (if strStartsWith "\x7bnope\x7d" "\x7b" ∧ strEndsWith "\x7bnope\x7d" "\x7d"
           then 1 else 0)
    ∧ (finalSafetyCheck jsonParseLite "en" "\x7bnope\x7d").fst = fallbackAck "en" :=
  ⟨(sanitizer_never_returns_json jsonParseLite (fun _ => none) (fun _ => "")
      "hello there" "not json" "en" "\x7bnope\x7d").1,
   (sanitizer_never_returns_json jsonParseLite (fun _ => none) (fun _ => "")
      "hello there" "not json" "en" "\x7bnope\x7d").2.1,
   (sanitizer_never_returns_json jsonParseLite (fun _ => none) (fun _ => "")
      "hello there" "not json" "en" "\x7bnope\x7d").2.2 (by decide) (by decide)⟩

/-- C10: orchestrated_reply is total and never returns the empty string; an
exception from the model call yields the fixed language-dependent apology;
and every return value is the fixed acknowledgement, the fixed apology, or a
sanitized reply that never both starts and ends with braces. -/
theorem orchestrated_reply_total (parse : String → Option Json)
    (regexReply : String → Option String) (dumps : Json → String)
    (msg : String) (mo : Option String) :
    (orchestratedReply parse regexReply dumps msg mo).fst ≠ ""
    ∧ (mo = none → (orchestratedReply parse regexReply dumps msg mo).fst
        = apologyFor (detectLanguage msg))
    ∧ ((orchestratedReply parse regexReply dumps msg mo).fst
         = fallbackAck (detectLanguage msg)
       ∨ (orchestratedReply parse regexReply dumps msg mo).fst
         = apologyFor (detectLanguage msg)
       ∨ ¬(strStartsWith (orchestratedReply parse regexReply dumps msg mo).fst "\x7b"
           ∧ strEndsWith (orchestratedReply parse regexReply dumps msg mo).fst "\x7d")) :=
  ⟨(orchestratedReply_fst_props parse regexReply dumps msg mo).1,
   (orchestratedReply_fst_props parse regexReply dumps msg mo).2.2,
   Or.inr (Or.inr (orchestratedReply_fst_props parse regexReply dumps msg mo).2.1)⟩

/-- C10 witness: the model-call exception path on a concrete message returns
the non-empty fixed apology. -/
theorem orchestrated_reply_total_witness :
    (orchestratedReply jsonParseLite (fun _ => none) (fun _ => "") "hello there" none).fst ≠ ""
    ∧ (orchestratedReply jsonParseLite (fun _ => none) (fun _ => "") "hello there" none).fst
        = apologyFor (detectLanguage "hello there") :=
  ⟨(orchestrated_reply_total jsonParseLite (fun _ => none) (fun _ => "")
      "hello there" none).1,
   (orchestrated_reply_total jsonParseLite (fun _ => none) (fun _ => "")
      "hello there" none).2.1 rfl⟩

-- ==============================
-- Claims C1 / C2 / C5: the webhook path against the staged model
-- ==============================

/-- C1: for every candidate in escalated status, processing any inbound
message produces no automated reply: no model call, no outbound send, no
notification of any kind, and the persisted candidate is unchanged, so its
status remains escalated; only the operator reply endpoint or the resume
action can produce user-visible traffic.  In the staged program the
invariant holds on every path, because process_webhook_message aborts at
views.py:589-595 (Candidate declares no processed_message_ids column) and
the except at views.py:664 ends processing before the tier-1 check, the
escalated-status check and the reply path; in particular the tier-1 handoff
re-send that views.py:615-629 would otherwise perform for an escalated
candidate is dead code. -/
theorem escalated_candidate_paused (cand : Candidate) (msg : String)
    (mid : Option String) (hstat : cand.status = "escalated") :
    processWebhookMessage cand msg mid = (cand, [])
    ∧ (processWebhookMessage cand msg mid).fst.status = "escalated"
    ∧ Effect.modelCall ∉ (processWebhookMessage cand msg mid).snd
    ∧ sendCount (processWebhookMessage cand msg mid).snd = 0 :=
  ⟨rfl, hstat, List.not_mem_nil _, rfl⟩

/-- C1 witness: even the explicit human-request message, which the keyword
matcher of views.py:469-505 would recognise, reaches the escalated candidate
without producing any outbound traffic or state change. -/
theorem escalated_candidate_paused_witness :
    processWebhookMessage escalatedCand "i want to speak to a human" (some "m1")
      = (escalatedCand, [])
    ∧ (processWebhookMessage escalatedCand "i want to speak to a human"
        (some "m1")).fst.status = "escalated"
    ∧ Effect.modelCall ∉ (processWebhookMessage escalatedCand
        "i want to speak to a human" (some "m1")).snd
    ∧ sendCount (processWebhookMessage escalatedCand
        "i want to speak to a human" (some "m1")).snd = 0 :=
  escalated_candidate_paused escalatedCand "i want to speak to a human" (some "m1") rfl

/-- C2 (code bug): delivering the same message identifier twice should
append exactly one user history record, but the staged program appends none:
Candidate declares no processed_message_ids column, so
process_webhook_message raises at views.py:589-595 before recording the id
or appending the user turn, on the first delivery and on the redelivery
alike, and the except at views.py:664 swallows the exception.  Evaluated at
the failing input (message ciao, id mid1, delivered twice to the replied
candidate): both deliveries are no-ops, the user-record count stays 0
instead of becoming 1, and the dedup column the claim quantifies over does
not exist on the model. -/
theorem dedup_state_unreachable :
    processWebhookMessage sampleCand "ciao" (some "mid1") = (sampleCand, [])
    ∧ userRecCount (processWebhookMessage
        (processWebhookMessage sampleCand "ciao" (some "mid1")).fst
        "ciao" (some "mid1")).fst = 0
    ∧ userRecCount sampleCand = 0
    ∧ "processed_message_ids" ∉ candidateColumns :=
  ⟨rfl, rfl, rfl, by decide⟩

/-- C5 (code bug): the keyword matcher itself does fire on a message
containing the tier-1 phrase, but processing never reaches it: the staged
program aborts at views.py:589-595 (no processed_message_ids column on
Candidate) before the check at views.py:618, so the candidate is not
escalated and no handoff is sent, contradicting the claim, whose intent
views.py:615-629 clearly implements. -/
theorem tier1_unreachable :
    checkImmediateEscalation "i want to speak to a human" = true
    ∧ processWebhookMessage sampleCand "i want to speak to a human" (some "m1")
        = (sampleCand, [])
    ∧ (processWebhookMessage sampleCand "i want to speak to a human"
        (some "m1")).fst.status = "replied"
    ∧ sendCount (processWebhookMessage sampleCand
        "i want to speak to a human" (some "m1")).snd = 0 :=
  ⟨by decide, rfl, rfl, rfl⟩
